import Mathlib

/-!
Verification of the rule-engine AST in
`src/ASSIGNMENT1/rule_Engine_with_AST.cpp` (utkarsh462255/Zeotap).

The C++ core is a binary AST of operator (`AND`/`OR`) and operand
(condition-string) nodes, a BSON serialization pair `toBSON`/`parseBSON`,
a fold-based `combineRules`, and a recursive `evaluateAST` over an
`unordered_map<string,int>` fact record.  We embed each of these as a
Lean function and prove the specification's testable properties about
them.

Modelling notes:
  - `std::shared_ptr<Node>` children become `Option Node` (null = `none`).
  - `std::unordered_map<std::string,int>::at` throwing
    `std::out_of_range` on a missing key is the only error path in
    `evaluateAST`; evaluation is therefore embedded as
    `Except EvalError Bool`, where `EvalError.outOfRange` is the thrown
    exception and C++ `&&`/`||` short-circuiting becomes the explicit
    bind on `Except`.
  - The BSON document built by `toBSON` always has string fields
    `type` and `value` and optional subdocuments `left` and `right`;
    `Doc` captures exactly this shape (a `left`/`right` key is present
    iff the node's child pointer is non-null).
-/

/-- `NodeType` from the source: operator or operand. -/
inductive NodeType where
  | OPERATOR
  | OPERAND
deriving DecidableEq, Repr

/-- `Node` from the source: a tagged tree node with an optional left and
right child (`shared_ptr` null becomes `none`). -/
inductive Node where
  | mk (type : NodeType) (value : String) (left right : Option Node)

def Node.type : Node → NodeType
  | .mk t _ _ _ => t

def Node.value : Node → String
  | .mk _ v _ _ => v

def Node.left : Node → Option Node
  | .mk _ _ l _ => l

def Node.right : Node → Option Node
  | .mk _ _ _ r => r

/-- The BSON document shape produced by `toBSON`: string keys `type`
and `value`, optional recursive subdocuments `left` and `right`. -/
inductive Doc where
  | mk (type : String) (value : String) (left right : Option Doc)

/-- `toBSON` from the source: encodes `type` as `"operator"`/`"operand"`,
copies `value`, and emits a `left`/`right` subdocument only when the
corresponding child pointer is non-null. -/
def toBSON : Node → Doc
  | .mk t v l r =>
    Doc.mk (if t = NodeType.OPERATOR then "operator" else "operand") v
      (match l with
       | none => none
       | some n => some (toBSON n))
      (match r with
       | none => none
       | some n => some (toBSON n))

/-- `RuleEngineDB.parseBSON` from the source: a `type` string equal to
`"operator"` yields an operator node, any other `type` string yields an
operand node; `left`/`right` are decoded when the key is present. -/
def parseBSON : Doc → Node
  | .mk t v l r =>
    Node.mk (if t = "operator" then NodeType.OPERATOR else NodeType.OPERAND) v
      (match l with
       | none => none
       | some d => some (parseBSON d))
      (match r with
       | none => none
       | some d => some (parseBSON d))

/-- A fact record: the source's `unordered_map<std::string,int>`,
embedded as an association list with unique-key lookup semantics. -/
def FactRecord : Type := List (String × Int)

/-- Lookup in the fact record; `none` models the key being absent
(where the source's `at` would throw `std::out_of_range`). -/
def findFact : FactRecord → String → Option Int
  | [], _ => none
  | (k, v) :: rest, key => if k = key then some v else findFact rest key

/-- The one exception `evaluateAST` can raise: `std::out_of_range`
thrown by `unordered_map::at` on a missing key. -/
inductive EvalError where
  | outOfRange (key : String)
deriving DecidableEq, Repr

/-- `evaluateAST` from the source.  A null node returns `false`; an
operand node returns `data.at("age") > 30` when its value is exactly
`"age > 30"` (raising `outOfRange` when the key is absent) and `false`
for every other value; an `AND`/`OR` operator node evaluates with C++
short-circuit semantics; any other operator value returns `false`. -/
def evaluateAST : Option Node → FactRecord → Except EvalError Bool
  | none, _ => .ok false
  | some (.mk t v l r), data =>
    match t with
    | .OPERAND =>
      if v = "age > 30" then
        match findFact data "age" with
        | some a => .ok (decide (a > 30))
        | none => .error (.outOfRange "age")
      else
        .ok false
    | .OPERATOR =>
      if v = "AND" then
        match evaluateAST l data with
        | .error e => .error e
        | .ok b => if b then evaluateAST r data else .ok false
      else if v = "OR" then
        match evaluateAST l data with
        | .error e => .error e
        | .ok b => if b then .ok true else evaluateAST r data
      else
        .ok false

/-- One step of the source's `combineRules` loop: fill the root's null
left child, else its null right child, else wrap the current root and
the new rule under a fresh `AND` node. -/
def combineStep (root rule : Node) : Node :=
  match root with
  | .mk t v none r => .mk t v (some rule) r
  | .mk t v (some l) none => .mk t v (some l) (some rule)
  | .mk t v (some l) (some r) =>
      .mk NodeType.OPERATOR "AND" (some (.mk t v (some l) (some r))) (some rule)

/-- `combineRules` from the source: starts from an `AND` node with both
children null and folds the rule list through `combineStep`. -/
def combineRules (rules : List Node) : Node :=
  rules.foldl combineStep (.mk NodeType.OPERATOR "AND" none none)

/-! ## Helper lemmas -/

/-- Unfolding lemma: evaluation of an `AND` operator node is the
`Except`-bind of the left child's evaluation, short-circuiting to
`.ok false` when the left child yields `false`. -/
theorem evaluateAST_and (l r : Option Node) (data : FactRecord) :
    evaluateAST (some (.mk .OPERATOR "AND" l r)) data =
      match evaluateAST l data with
      | .error e => .error e
      | .ok b => if b then evaluateAST r data else .ok false := by
  simp [evaluateAST]

/-- Unfolding lemma: evaluation of an `OR` operator node short-circuits
to `.ok true` when the left child yields `true`. -/
theorem evaluateAST_or (l r : Option Node) (data : FactRecord) :
    evaluateAST (some (.mk .OPERATOR "OR" l r)) data =
      match evaluateAST l data with
      | .error e => .error e
      | .ok b => if b then .ok true else evaluateAST r data := by
  simp [evaluateAST]

/-- Decoding inverts encoding node by node: `parseBSON (toBSON n) = n`. -/
theorem parseBSON_toBSON : ∀ n : Node, parseBSON (toBSON n) = n
  | .mk t v none none => by
      cases t <;> simp [toBSON, parseBSON]
  | .mk t v (some a) none => by
      cases t <;> simp [toBSON, parseBSON, parseBSON_toBSON a]
  | .mk t v none (some b) => by
      cases t <;> simp [toBSON, parseBSON, parseBSON_toBSON b]
  | .mk t v (some a) (some b) => by
      cases t <;> simp [toBSON, parseBSON, parseBSON_toBSON a, parseBSON_toBSON b]

/-! ## Claim theorems -/

/-- Claim C1: for every tree `T`, decoding the encoding of `T`
(`parseBSON` after `toBSON`) yields a tree that evaluates identically to
`T` against every fact record (in fact the decoded tree is structurally
equal, which covers in particular every tree buildable through the node
constructors and `combineRules`). -/
theorem roundtrip_eval_eq (T : Node) (data : FactRecord) :
    evaluateAST (some (parseBSON (toBSON T))) data = evaluateAST (some T) data := by
  rw [parseBSON_toBSON]

/-- Claim C2: an `AND` node whose left child evaluates to `.ok false`
evaluates to `.ok false` for every right child (so no error arising only
from the right child is signaled), and symmetrically an `OR` node whose
left child evaluates to `.ok true` evaluates to `.ok true` for every
right child. -/
theorem short_circuit_and_or (l : Option Node) (data : FactRecord) :
    (evaluateAST l data = .ok false →
      ∀ r, evaluateAST (some (.mk .OPERATOR "AND" l r)) data = .ok false) ∧
    (evaluateAST l data = .ok true →
      ∀ r, evaluateAST (some (.mk .OPERATOR "OR" l r)) data = .ok true) := by
  constructor
  · intro h r
    rw [evaluateAST_and, h]
    simp
  · intro h r
    rw [evaluateAST_or, h]
    simp

/-- Witness for C2: an `AND` whose left operand is the unrecognized
condition `"zzz"` (evaluating `false`) returns `false` even though its
right operand `"age > 30"` would raise `outOfRange` on the empty fact
record; an `OR` whose left operand evaluates `true` returns `true`. -/
theorem short_circuit_and_or_witness :
    evaluateAST (some (.mk .OPERATOR "AND" (some (.mk .OPERAND "zzz" none none))
      (some (.mk .OPERAND "age > 30" none none)))) [] = .ok false ∧
    evaluateAST (some (.mk .OPERATOR "OR" (some (.mk .OPERAND "age > 30" none none))
      (some (.mk .OPERAND "age > 30" none none)))) [("age", 35)] = .ok true :=
  ⟨(short_circuit_and_or (some (.mk .OPERAND "zzz" none none)) []).1
      (by simp [evaluateAST]) (some (.mk .OPERAND "age > 30" none none)),
   (short_circuit_and_or (some (.mk .OPERAND "age > 30" none none)) [("age", 35)]).2
      (by simp [evaluateAST, findFact]) (some (.mk .OPERAND "age > 30" none none))⟩

/-- Claim C4 (code behavior at the failing input): evaluating the
operand `"height > 180"` against a fact record lacking `height` returns
`.ok false`; no MissingFact-style error exists in the code. -/
theorem height_operand_missing_fact_returns_false :
    evaluateAST (some (.mk .OPERAND "height > 180" none none)) [] = .ok false := by
  simp [evaluateAST]

/-- Claim C5 (code behavior at the failing input): evaluating an operand
whose condition string parses under no grammar at all returns
`.ok false`; no MalformedCondition-style error exists in the code. -/
theorem malformed_condition_returns_false :
    evaluateAST (some (.mk .OPERAND "@@ not a condition @@" none none)) [("x", 1)]
      = .ok false := by
  simp [evaluateAST]

/-- Claim C9 (code behavior at the failing input): decoding a document
whose `type` is `"bogus"` silently coerces it to an operand node; no
CorruptDocument-style error exists in the code. -/
theorem bogus_type_decodes_to_operand :
    parseBSON (Doc.mk "bogus" "x" none none) = .mk .OPERAND "x" none none := rfl

/-- Claim C10: an operand node whose value is any string other than
exactly `"age > 30"` evaluates to `.ok false` for every fact record and
any children, without consulting the fact record. -/
theorem operand_unknown_condition_false (s : String) (hs : s ≠ "age > 30")
    (l r : Option Node) (data : FactRecord) :
    evaluateAST (some (.mk .OPERAND s l r)) data = .ok false := by
  simp [evaluateAST, hs]

/-- Witness for C10: the operand `"height > 181"` evaluates to
`.ok false` on a fact record that even contains an `age` entry. -/
theorem operand_unknown_condition_false_witness :
    "height > 181" ≠ "age > 30" ∧
    evaluateAST (some (.mk .OPERAND "height > 181" none none)) [("age", 100)]
      = .ok false :=
  ⟨by decide, operand_unknown_condition_false "height > 181" (by decide) none none
      [("age", 100)]⟩

/-- Claim C6 (code behavior at the failing input): combining an empty
sequence of rules returns an `AND` operator node with both children
absent — a tree, not an error — and that tree evaluates to `.ok false`;
no EmptyRuleSet-style error exists in the code. -/
theorem combine_empty_returns_tree :
    combineRules [] = .mk .OPERATOR "AND" none none ∧
    evaluateAST (some (combineRules [])) [] = .ok false := by
  refine ⟨rfl, ?_⟩
  simp [combineRules, evaluateAST]

/-- Claim C7 (code behavior at the failing input): combining the
single-element list holding the operand `"age > 30"` yields an `AND`
node with that rule as left child and an absent right child — not the
rule unchanged — and on the facts `age = 35` the rule alone evaluates
`.ok true` while the combined tree evaluates `.ok false`. -/
theorem combine_single_not_equivalent :
    combineRules [Node.mk .OPERAND "age > 30" none none]
      = .mk .OPERATOR "AND" (some (.mk .OPERAND "age > 30" none none)) none ∧
    evaluateAST (some (.mk .OPERAND "age > 30" none none)) [("age", 35)] = .ok true ∧
    evaluateAST (some (combineRules [Node.mk .OPERAND "age > 30" none none]))
      [("age", 35)] = .ok false := by
  refine ⟨rfl, by simp [evaluateAST, findFact], ?_⟩
  simp [combineRules, combineStep, evaluateAST, findFact]

/-- Claim C8 (code behavior at the failing inputs): evaluation returns
`.ok false` — it signals no error — for a null node, for an operator
node whose value `"XOR"` is outside the vocabulary, for an `AND` node
with an absent left child, and for an `AND` node whose left child is
true but whose right child is absent. -/
theorem invalid_trees_return_false :
    evaluateAST none [] = .ok false ∧
    evaluateAST (some (.mk .OPERATOR "XOR"
      (some (.mk .OPERAND "age > 30" none none))
      (some (.mk .OPERAND "age > 30" none none)))) [("age", 35)] = .ok false ∧
    evaluateAST (some (.mk .OPERATOR "AND" none
      (some (.mk .OPERAND "age > 30" none none)))) [("age", 35)] = .ok false ∧
    evaluateAST (some (.mk .OPERATOR "AND"
      (some (.mk .OPERAND "age > 30" none none)) none)) [("age", 35)] = .ok false := by
  refine ⟨by simp [evaluateAST], by simp [evaluateAST], ?_, ?_⟩ <;>
    simp [evaluateAST, findFact]

/-! ## Rule combination and permutations (C3) -/

/-- The boolean a rule evaluates to when its evaluation raises no
error (`false` as a dummy in the error case). -/
def evalBool (n : Node) (data : FactRecord) : Bool :=
  match evaluateAST (some n) data with
  | .ok b => b
  | .error _ => false

/-- Folding further rules onto an accumulator whose two children are
both populated chains fresh `AND` nodes, so the result evaluates to the
conjunction of the accumulator's value and all the new rules' values,
provided every rule evaluates without error. -/
theorem foldl_combineStep_eval (data : FactRecord) (f : Node → Bool) :
    ∀ (rest : List Node) (t : NodeType) (s : String) (a b : Node) (v : Bool),
      evaluateAST (some (.mk t s (some a) (some b))) data = .ok v →
      (∀ n ∈ rest, evaluateAST (some n) data = .ok (f n)) →
      evaluateAST (some (rest.foldl combineStep (.mk t s (some a) (some b)))) data
        = .ok (v && rest.all f)
  | [], t, s, a, b, v, hacc, _ => by simpa using hacc
  | x :: xs, t, s, a, b, v, hacc, hall => by
      have hx : evaluateAST (some x) data = .ok (f x) := hall x (by simp)
      have hstep :
          evaluateAST (some (combineStep (.mk t s (some a) (some b)) x)) data
            = .ok (v && f x) := by
        rw [combineStep, evaluateAST_and, hacc]
        cases v
        · simp
        · simpa using hx
      have ih := foldl_combineStep_eval data f xs NodeType.OPERATOR "AND"
        (.mk t s (some a) (some b)) x (v && f x) hstep
        (fun n hn => hall n (by simp [hn]))
      simp only [List.foldl_cons, combineStep] at ih ⊢
      rw [ih]
      simp [Bool.and_assoc]

/-- Evaluation of `combineRules`: when every rule in the list evaluates
without error, the combined tree evaluates to `false` for fewer than two
rules (the root keeps a null child, which evaluates `false`) and to the
conjunction of all the rules' values otherwise. -/
theorem combineRules_eval (rules : List Node) (data : FactRecord) (f : Node → Bool)
    (hall : ∀ n ∈ rules, evaluateAST (some n) data = .ok (f n)) :
    evaluateAST (some (combineRules rules)) data
      = .ok (decide (2 ≤ rules.length) && rules.all f) := by
  match rules with
  | [] =>
    simp [combineRules, evaluateAST]
  | [r] =>
    have h := hall r (by simp)
    rw [combineRules]
    simp only [List.foldl_cons, List.foldl_nil, combineStep]
    rw [evaluateAST_and, h]
    cases f r <;> simp [evaluateAST]
  | r1 :: r2 :: rest =>
    have h1 := hall r1 (by simp)
    have h2 := hall r2 (by simp)
    have hacc :
        evaluateAST (some (.mk NodeType.OPERATOR "AND" (some r1) (some r2))) data
          = .ok (f r1 && f r2) := by
      rw [evaluateAST_and, h1]
      cases f r1
      · simp
      · simpa using h2
    have hfold := foldl_combineStep_eval data f rest NodeType.OPERATOR "AND"
      r1 r2 (f r1 && f r2) hacc (fun n hn => hall n (by simp [hn]))
    rw [combineRules]
    simp only [List.foldl_cons, combineStep]
    rw [hfold]
    simp [Bool.and_assoc, Nat.succ_le_succ]

/-- Counterexample to C3 as stated: the two-element rule set holding the
operand `"age > 30"` and the operand `"zzz"` is permuted by swapping,
yet on the empty fact record one ordering of `combineRules` raises
`outOfRange` (no boolean at all) while the other returns `.ok false`. -/
theorem combine_perm_counterexample :
    List.Perm
      [Node.mk .OPERAND "age > 30" none none, Node.mk .OPERAND "zzz" none none]
      [Node.mk .OPERAND "zzz" none none, Node.mk .OPERAND "age > 30" none none] ∧
    evaluateAST (some (combineRules
      [Node.mk .OPERAND "age > 30" none none, Node.mk .OPERAND "zzz" none none]))
      [] = .error (.outOfRange "age") ∧
    evaluateAST (some (combineRules
      [Node.mk .OPERAND "zzz" none none, Node.mk .OPERAND "age > 30" none none]))
      [] = .ok false := by
  refine ⟨List.Perm.swap _ _ _, ?_, ?_⟩ <;>
  · rw [combineRules]
    simp only [List.foldl_cons, List.foldl_nil, combineStep]
    rw [evaluateAST_and]
    simp [evaluateAST, findFact]

/-- `List.all` is invariant under permutation. -/
theorem perm_all_eq (g : Node → Bool) {l1 l2 : List Node} (hp : List.Perm l1 l2) :
    l1.all g = l2.all g := by
  induction hp with
  | nil => rfl
  | cons x _ ih => simp [List.all_cons, ih]
  | swap x y l => simp [List.all_cons, Bool.and_left_comm]
  | trans _ _ ih1 ih2 => exact ih1.trans ih2

/-- Claim C3 (amended): for every fixed rule set, every permutation of
it, and every fact record against which each rule in the set evaluates
without error, evaluating the combined tree yields the same result. -/
theorem combine_perm_eval_eq (l1 l2 : List Node) (data : FactRecord)
    (hp : List.Perm l1 l2)
    (h : ∀ n ∈ l1, ∃ b, evaluateAST (some n) data = Except.ok b) :
    evaluateAST (some (combineRules l1)) data
      = evaluateAST (some (combineRules l2)) data := by
  have hall1 : ∀ n ∈ l1, evaluateAST (some n) data = .ok (evalBool n data) := by
    intro n hn
    obtain ⟨b, hb⟩ := h n hn
    rw [evalBool, hb]
  have hall2 : ∀ n ∈ l2, evaluateAST (some n) data = .ok (evalBool n data) :=
    fun n hn => hall1 n (hp.mem_iff.mpr hn)
  rw [combineRules_eval l1 data _ hall1, combineRules_eval l2 data _ hall2,
    hp.length_eq, perm_all_eq (evalBool · data) hp]

/-- Witness for C3 (amended): both rules of the swapped two-element set
evaluate without error on the facts `age = 35`, and the two combined
trees evaluate to the same result there. -/
theorem combine_perm_eval_eq_witness :
    evaluateAST (some (combineRules
      [Node.mk .OPERAND "age > 30" none none, Node.mk .OPERAND "zzz" none none]))
      [("age", 35)]
      = evaluateAST (some (combineRules
      [Node.mk .OPERAND "zzz" none none, Node.mk .OPERAND "age > 30" none none]))
      [("age", 35)] :=
  combine_perm_eval_eq _ _ _ (List.Perm.swap _ _ _)
    (by
      intro n hn
      simp only [List.mem_cons, List.not_mem_nil, or_false] at hn
      rcases hn with rfl | rfl
      · exact ⟨true, by simp [evaluateAST, findFact]⟩
      · exact ⟨false, by simp [evaluateAST]⟩)
